import Mathlib

/-!
Shallow embedding of the pipecraft sync engine
(`backend/pipecraft/api/routers/syncs.py`,
`backend/pipecraft/api/routers/connections.py`,
`backend/pipecraft/api/schemas.py`, `backend/pipecraft/db/models.py`).

External database effects (reading the source table, inspecting the
destination, executing DDL/DML) are modelled by an explicit environment
record whose fields carry the outcome of each external call; the control
flow, branching, and error handling of the Python functions are
translated faithfully.
-/

namespace Pipecraft

/-- `models.DBType` from `db/models.py`.  The Python enum has exactly the
members `POSTGRES` and `MYSQL`; the `other` constructor models a
`db_type` value outside those two recognized members, which every
dialect branch in the source handles defensively with
`raise ValueError(f"Unsupported db_type: ...")`. -/
inductive DBType where
  | postgres
  | mysql
  | other (s : String)
deriving DecidableEq, Repr

/-- Render the dialect the way the Python f-string interpolates it into
the `ValueError` message. -/
def DBType.render : DBType → String
  | .postgres => "postgres"
  | .mysql => "mysql"
  | .other s => s

/-- `models.Connection` from `db/models.py` (timestamps omitted: no claim
mentions them). -/
structure Connection where
  id : Nat
  name : String
  db_type : DBType
  host : String
  port : Int
  database : String
  username : String
  password : String
  is_source : Bool
  is_destination : Bool
deriving DecidableEq, Repr

/-- `models.WriteMode` from `db/models.py`. -/
inductive WriteMode where
  | truncate_insert
deriving DecidableEq, Repr

/-- `models.Sync` from `db/models.py` (timestamps omitted). -/
structure Sync where
  id : Nat
  name : String
  description : Option String
  source_connection_id : Nat
  source_table : String
  dest_connection_id : Nat
  dest_schema : Option String
  dest_table : String
  write_mode : WriteMode
deriving DecidableEq, Repr

/-- `models.SyncStatus` from `db/models.py`. -/
inductive SyncStatus where
  | pending
  | running
  | success
  | failed
deriving DecidableEq, Repr

/-- `models.SyncRun` from `db/models.py`; timestamps are abstract `Nat`
ticks supplied by the caller's environment. -/
structure SyncRun where
  sync_id : Nat
  status : SyncStatus
  started_at : Nat
  ended_at : Option Nat
  row_count : Option Nat
  error_message : Option String
deriving DecidableEq, Repr

/-- A row mapping as produced by `dict(r._mapping)`: an ordered list of
column-name/value pairs; values are strings (the engine only moves
generic text). -/
abbrev Row := List (String × String)

/-- `build_db_url` from `routers/connections.py`: picks the driver from
the dialect and interpolates credentials into a URL; raises `ValueError`
for an unsupported dialect, modelled with `Except.error`. -/
def build_db_url (conn : Connection) : Except String String :=
  match conn.db_type with
  | .postgres =>
      .ok ("postgresql+psycopg2://" ++ conn.username ++ ":" ++ conn.password
        ++ "@" ++ conn.host ++ ":" ++ toString conn.port ++ "/" ++ conn.database)
  | .mysql =>
      .ok ("mysql+pymysql://" ++ conn.username ++ ":" ++ conn.password
        ++ "@" ++ conn.host ++ ":" ++ toString conn.port ++ "/" ++ conn.database)
  | .other s => .error ("Unsupported db_type: " ++ s)

/-- Split a character list at the first `'.'`, the semantics of Python's
`table.split(".", 1)`; `none` when no dot occurs (Python's
`"." in table` is false). -/
def splitAtFirstDot : List Char → Option (List Char × List Char)
  | [] => none
  | c :: cs =>
      if c = '.' then some ([], cs)
      else
        match splitAtFirstDot cs with
        | none => none
        | some (a, b) => some (c :: a, b)

/-- `split_table_identifier` from `routers/syncs.py`: Postgres splits at
the first dot when one is present and defaults the schema to `public`
otherwise; MySQL returns the connection's database with the raw table
verbatim; an unsupported dialect raises `ValueError`. -/
def split_table_identifier (conn : Connection) (table : String) :
    Except String (String × String) :=
  match conn.db_type with
  | .postgres =>
      match splitAtFirstDot table.toList with
      | some (schema, tbl) => .ok (⟨schema⟩, ⟨tbl⟩)
      | none => .ok ("public", table)
  | .mysql => .ok (conn.database, table)
  | .other s => .error ("Unsupported db_type: " ++ s)

/-- Python truthiness of an optional string: `None` and `""` are falsy. -/
def strOptTruthy : Option String → Bool
  | none => false
  | some s => !s.isEmpty

/-- The destination-identifier computation of `run_sync`
(`routers/syncs.py` lines 196-205): `schema.table` when the dialect is
Postgres and `dest_schema` is truthy, likewise for MySQL, and the bare
table name otherwise. -/
def qualified_dest (db_type : DBType) (dest_schema : Option String)
    (dest_table : String) : String :=
  if db_type = .postgres ∧ strOptTruthy dest_schema then
    dest_schema.getD "" ++ "." ++ dest_table
  else if db_type = .mysql ∧ strOptTruthy dest_schema then
    dest_schema.getD "" ++ "." ++ dest_table
  else
    dest_table

/-- The source-identifier computation of `run_sync`
(`routers/syncs.py` lines 189-193): Postgres qualifies with the schema
from `split_table_identifier`, every other dialect uses the bare name. -/
def qualified_src (db_type : DBType) (src_schema src_table : String) : String :=
  if db_type = .postgres then src_schema ++ "." ++ src_table else src_table

/-- `test_db_connection` from `routers/connections.py` is handed the
outcome of the `create_engine` / `connect` / `SELECT 1` round trip; this
record models a raised Python exception: whether it is an instance of
`SQLAlchemyError`, and the message `str(e.__cause__ or e)` extracted
from it. -/
structure PyError where
  isSQLAlchemyError : Bool
  msg : String
deriving DecidableEq, Repr

/-- `test_db_connection` from `routers/connections.py`: returns
`(True, None)` when the round trip succeeds; its `except SQLAlchemyError`
clause converts exactly the `SQLAlchemyError` failures into
`(False, message)`; any other exception propagates (`Except.error`). -/
def test_db_connection (roundTrip : Except PyError Unit) :
    Except PyError (Bool × Option String) :=
  match roundTrip with
  | .ok _ => .ok (true, none)
  | .error e =>
      if e.isSQLAlchemyError then .ok (false, some e.msg) else .error e

/-- `list_schemas_for_connection` from `routers/connections.py`;
`all_schemas` is the list returned by `insp.get_schema_names()` on the
live engine.  Postgres filters out names starting with `pg_` and the
name `information_schema`; MySQL returns the connection's database as
the single schema; an unsupported dialect raises `ValueError`. -/
def list_schemas_for_connection (conn : Connection) (all_schemas : List String) :
    Except String (List String) :=
  match conn.db_type with
  | .postgres =>
      .ok (all_schemas.filter
        (fun s => !s.startsWith "pg_" && s != "information_schema"))
  | .mysql => .ok [conn.database]
  | .other s => .error ("Unsupported db_type: " ++ s)

/-- Outcomes of the external engine calls made by `run_sync`
(`routers/syncs.py`): one field per fallible call against the source or
destination database, each an `Except` carrying the stringified Python
exception on failure. -/
structure EngineEnv where
  /-- outcome of `SELECT * FROM qualified_src` read into row mappings -/
  readResult : Except String (List Row)
  /-- outcome of `insp_dest.has_table(...)` -/
  hasTableOutcome : Except String Bool
  /-- outcome of `insp_src.get_columns(...)`, as the list of column names -/
  sourceColumnsOutcome : Except String (List String)
  /-- outcome of the `CREATE SCHEMA IF NOT EXISTS` / `CREATE TABLE`
  transaction used when the destination table is absent -/
  createOutcome : Except String Unit
  /-- outcome of the `TRUNCATE TABLE` statement -/
  truncateOutcome : Except String Unit
  /-- outcome of the bulk `INSERT INTO ... VALUES ...` statement -/
  insertOutcome : Except String Unit
deriving Repr

/-- Observables of a successfully completed `run_sync` body. -/
structure BodyResult where
  row_count : Nat
  /-- destination table content after the committed transaction -/
  destRows : List Row
  /-- whether the destination table was auto-created during this run -/
  tableCreated : Bool
  truncateExecuted : Bool
  insertExecuted : Bool
deriving DecidableEq, Repr

/-- The body of the `try:` block of `run_sync` (`routers/syncs.py` lines
178-271), translated step by step: build both URLs, resolve identifiers,
read all source rows, check destination existence, auto-create the
destination table if absent, then truncate and insert inside one
destination transaction.  `destBefore` is the destination table content
when the run starts.  On failure the error carries the stringified
exception together with the destination content after rollback (the
`with dest_engine.begin()` context managers roll back on exception) and
whether the create-table transaction had already committed. -/
def runSyncBody (sync : Sync) (source_conn dest_conn : Connection)
    (destBefore : List Row) (eng : EngineEnv) :
    Except (String × List Row × Bool) BodyResult :=
  match build_db_url source_conn with
  | .error m => .error (m, destBefore, false)
  | .ok _ =>
    match build_db_url dest_conn with
    | .error m => .error (m, destBefore, false)
    | .ok _ =>
      match split_table_identifier source_conn sync.source_table with
      | .error m => .error (m, destBefore, false)
      | .ok (_src_schema, _src_table) =>
        -- the SQL below is issued against
        -- `qualified_src source_conn.db_type src_schema src_table` and
        -- `qualified_dest dest_conn.db_type sync.dest_schema sync.dest_table`
        match eng.readResult with
        | .error m => .error (m, destBefore, false)
        | .ok rows =>
          match
            ((match dest_conn.db_type with
              | .postgres => eng.hasTableOutcome
              | .mysql => eng.hasTableOutcome
              | .other s =>
                  .error ("Unsupported dest db_type: " ++ s)) :
              Except String Bool) with
          | .error m => .error (m, destBefore, false)
          | .ok table_exists =>
            match
              ((if table_exists then .ok false
                else
                  match
                    ((match source_conn.db_type with
                      | .postgres => eng.sourceColumnsOutcome
                      | .mysql => eng.sourceColumnsOutcome
                      | .other s =>
                          .error ("Unsupported source db_type: " ++ s)) :
                      Except String (List String)) with
                  | .error m => .error m
                  | .ok src_cols =>
                    if src_cols.isEmpty then
                      .error
                        "Cannot auto-create destination table: source table has no columns."
                    else
                      match eng.createOutcome with
                      | .error m => .error m
                      | .ok _ => .ok true) :
                Except String Bool) with
            | .error m => .error (m, destBefore, false)
            | .ok created =>
              -- the content the destination rolls back to: empty when the
              -- table was created by this run, the pre-run rows otherwise
              match eng.truncateOutcome with
              | .error m => .error (m, if created then [] else destBefore, created)
              | .ok _ =>
                if rows.length > 0 then
                  match eng.insertOutcome with
                  | .error m =>
                      .error (m, if created then [] else destBefore, created)
                  | .ok _ =>
                      .ok { row_count := rows.length, destRows := rows,
                            tableCreated := created,
                            truncateExecuted := true, insertExecuted := true }
                else
                  .ok { row_count := 0, destRows := [],
                        tableCreated := created,
                        truncateExecuted := true, insertExecuted := false }

/-- The inputs of one `run_sync` invocation: the ledger lookups for the
Sync and its two Connections, abstract clock ticks for the two
`datetime.utcnow()` calls, and the engine-call outcomes. -/
structure RunSyncInput where
  sync_id : Nat
  syncLookup : Option Sync
  sourceConnLookup : Option Connection
  destConnLookup : Option Connection
  startedTime : Nat
  endedTime : Nat
  engine : EngineEnv
deriving Repr

/-- The observable outcome of one `run_sync` invocation: the
`HTTPException` (status code, detail) when one is raised before a run is
created, the run record persisted by this invocation (`none` when no run
was created), the destination table content afterwards, and which
destination statements took durable (committed) effect. -/
structure RunSyncResult where
  httpError : Option (Nat × String)
  run : Option SyncRun
  destRows : List Row
  truncateExecuted : Bool
  insertExecuted : Bool
deriving DecidableEq, Repr

/-- `run_sync` from `routers/syncs.py`: 404 when the Sync is missing,
400 when either Connection is missing (both before any run is created);
otherwise a run is created in RUNNING and the body executes under
`try/except`, resolving the run to SUCCESS with its row count or to
FAILED with the stringified exception, either way stamping `ended_at`. -/
def run_sync (inp : RunSyncInput) (destBefore : List Row) : RunSyncResult :=
  match inp.syncLookup with
  | none =>
      { httpError := some (404, "Sync with id=" ++ toString inp.sync_id ++ " not found."),
        run := none, destRows := destBefore,
        truncateExecuted := false, insertExecuted := false }
  | some sync =>
    match inp.sourceConnLookup, inp.destConnLookup with
    | some source_conn, some dest_conn =>
        let run0 : SyncRun :=
          { sync_id := sync.id, status := .running,
            started_at := inp.startedTime, ended_at := none,
            row_count := none, error_message := none }
        match runSyncBody sync source_conn dest_conn destBefore inp.engine with
        | .ok b =>
            let runDone : SyncRun :=
              { run0 with status := .success, row_count := some b.row_count,
                          ended_at := some inp.endedTime, error_message := none }
            { httpError := none, run := some runDone, destRows := b.destRows,
              truncateExecuted := b.truncateExecuted,
              insertExecuted := b.insertExecuted }
        | .error (msg, destAfter, _) =>
            let runDone : SyncRun :=
              { run0 with status := .failed, error_message := some msg,
                          ended_at := some inp.endedTime }
            { httpError := none, run := some runDone, destRows := destAfter,
              truncateExecuted := false, insertExecuted := false }
    | _, _ =>
        { httpError := some (400, "Source or destination connection not found."),
          run := none, destRows := destBefore,
          truncateExecuted := false, insertExecuted := false }

/-- `ConnectionOut` from `api/schemas.py` (lines 99-112): the response
shape of `create_connection` and `list_connections`.  It has no
`password` field. -/
structure ConnectionOut where
  id : Nat
  name : String
  db_type : DBType
  host : String
  port : Int
  database : String
  username : String
  is_source : Bool
  is_destination : Bool
deriving DecidableEq, Repr

/-- Serialization of a stored `Connection` through the `ConnectionOut`
response model (pydantic `from_attributes`): each output field is read
off the ORM object; `password` is simply not part of the output. -/
def toConnectionOut (c : Connection) : ConnectionOut :=
  { id := c.id, name := c.name, db_type := c.db_type, host := c.host,
    port := c.port, database := c.database, username := c.username,
    is_source := c.is_source, is_destination := c.is_destination }

/-- The body of `create_connection` returns the freshly stored
connection, serialized through `response_model=ConnectionOut`. -/
def create_connection_response (c : Connection) : ConnectionOut :=
  toConnectionOut c

/-- Insertion step of the `ORDER BY name` sort used by
`list_connections`. -/
def insertByName (c : Connection) : List Connection → List Connection
  | [] => [c]
  | d :: ds => if c.name ≤ d.name then c :: d :: ds else d :: insertByName c ds

/-- The `ORDER BY models.Connection.name` sort applied by
`list_connections`, modelled as a stable insertion sort on the name
field. -/
def sortByName : List Connection → List Connection
  | [] => []
  | c :: cs => insertByName c (sortByName cs)

/-- `list_connections` from `routers/connections.py`: all stored
connections ordered by name, each serialized through
`response_model=List[ConnectionOut]`. -/
def list_connections_response (stored : List Connection) : List ConnectionOut :=
  (sortByName stored).map toConnectionOut

/-- Two stored connections that agree on every column except
`password`. -/
def agreeExceptPassword (c₁ c₂ : Connection) : Prop :=
  c₁.id = c₂.id ∧ c₁.name = c₂.name ∧ c₁.db_type = c₂.db_type ∧
  c₁.host = c₂.host ∧ c₁.port = c₂.port ∧ c₁.database = c₂.database ∧
  c₁.username = c₂.username ∧ c₁.is_source = c₂.is_source ∧
  c₁.is_destination = c₂.is_destination

/-- Sample Postgres connection used for concrete evaluations. -/
def pgConn : Connection :=
  { id := 1, name := "local_postgres", db_type := .postgres,
    host := "localhost", port := 5432, database := "appdb",
    username := "alice", password := "secret",
    is_source := true, is_destination := true }

/-- Sample Postgres connection differing from `pgConn` only in its
password. -/
def pgConn2 : Connection := { pgConn with password := "hunter3" }

/-- Sample MySQL connection. -/
def myConn : Connection :=
  { id := 2, name := "local_mysql", db_type := .mysql,
    host := "localhost", port := 3306, database := "mydb",
    username := "bob", password := "hunter2",
    is_source := true, is_destination := true }

/-- Sample connection with an unrecognized dialect. -/
def oracleConn : Connection :=
  { id := 3, name := "legacy_oracle", db_type := .other "oracle",
    host := "localhost", port := 1521, database := "odb",
    username := "carol", password := "pw",
    is_source := true, is_destination := true }

/-- Sample Sync definition. -/
def sampleSync : Sync :=
  { id := 7, name := "daily_orders", description := none,
    source_connection_id := 1, source_table := "public.orders",
    dest_connection_id := 1, dest_schema := some "analytics",
    dest_table := "orders_copy", write_mode := .truncate_insert }

/-- Engine environment in which every external call succeeds and the
source read yields one row. -/
def okEngine : EngineEnv :=
  { readResult := .ok [[("id", "1"), ("name", "widget")]],
    hasTableOutcome := .ok true,
    sourceColumnsOutcome := .ok ["id", "name"],
    createOutcome := .ok (),
    truncateOutcome := .ok (),
    insertOutcome := .ok () }

/-- Engine environment whose source read yields zero rows. -/
def emptyReadEngine : EngineEnv := { okEngine with readResult := .ok [] }

/-- Engine environment whose bulk insert fails. -/
def failingInsertEngine : EngineEnv :=
  { okEngine with insertOutcome := .error "insert exploded" }

/-- `run_sync` input where every lookup resolves and every engine call
succeeds. -/
def okInput : RunSyncInput :=
  { sync_id := 7, syncLookup := some sampleSync,
    sourceConnLookup := some pgConn, destConnLookup := some pgConn,
    startedTime := 10, endedTime := 11, engine := okEngine }

/-- `run_sync` input whose source connection lookup fails. -/
def missingConnInput : RunSyncInput :=
  { okInput with sourceConnLookup := none }

/-- `run_sync` input whose source connection has an unrecognized
dialect. -/
def oracleInput : RunSyncInput :=
  { okInput with sourceConnLookup := some oracleConn }

/-- `run_sync` input whose destination connection has an unrecognized
dialect. -/
def oracleDestInput : RunSyncInput :=
  { okInput with destConnLookup := some oracleConn }

/-- `run_sync` input with an empty source table. -/
def emptyReadInput : RunSyncInput := { okInput with engine := emptyReadEngine }

/-- `run_sync` input whose insert statement fails. -/
def failingInsertInput : RunSyncInput :=
  { okInput with engine := failingInsertEngine }

/-! ## Helper lemmas -/

theorem splitAtFirstDot_of_not_mem (cs : List Char) (h : '.' ∉ cs) :
    splitAtFirstDot cs = none := by
  induction cs with
  | nil => rfl
  | cons c cs ih =>
      simp only [List.mem_cons, not_or] at h
      obtain ⟨h1, h2⟩ := h
      have hc : ¬ c = '.' := fun e => h1 e.symm
      simp [splitAtFirstDot, hc, ih h2]

theorem splitAtFirstDot_append (a b : List Char) (h : '.' ∉ a) :
    splitAtFirstDot (a ++ '.' :: b) = some (a, b) := by
  induction a with
  | nil => simp [splitAtFirstDot]
  | cons c cs ih =>
      simp only [List.mem_cons, not_or] at h
      obtain ⟨h1, h2⟩ := h
      have hc : ¬ c = '.' := fun e => h1 e.symm
      simp [splitAtFirstDot, hc, ih h2]

theorem if_ok_false_ne_true {e : Except String Bool} {b : Bool}
    (h : (if b = true then Except.ok false else e) = Except.ok true) :
    b = false := by
  cases b <;> simp_all

theorem runSyncBody_error_inv (sync : Sync) (sc dc : Connection)
    (destBefore : List Row) (eng : EngineEnv) (msg : String)
    (destAfter : List Row) (created : Bool)
    (h : runSyncBody sync sc dc destBefore eng =
      Except.error (msg, destAfter, created)) :
    destAfter = (if created then [] else destBefore) ∧
    (eng.hasTableOutcome = Except.ok true → created = false) := by
  unfold runSyncBody at h
  repeat' split at h
  all_goals cases hdc : dc.db_type <;> simp_all
  all_goals exact if_ok_false_ne_true (by assumption)

theorem runSyncBody_ok_destRows (sync : Sync) (sc dc : Connection)
    (destBefore : List Row) (eng : EngineEnv) (b : BodyResult) (rs : List Row)
    (hok : runSyncBody sync sc dc destBefore eng = Except.ok b)
    (hread : eng.readResult = Except.ok rs) :
    b.destRows = rs := by
  unfold runSyncBody at hok
  repeat' split at hok
  all_goals simp_all
  all_goals (subst hok; simp_all)

theorem build_db_url_isOk (conn : Connection)
    (h : conn.db_type = DBType.postgres ∨ conn.db_type = DBType.mysql) :
    ∃ u, build_db_url conn = Except.ok u := by
  rcases h with h | h <;>
    exact ⟨_, by unfold build_db_url; rw [h]⟩

theorem split_table_identifier_isOk (conn : Connection) (raw : String)
    (h : conn.db_type = DBType.postgres ∨ conn.db_type = DBType.mysql) :
    ∃ p, split_table_identifier conn raw = Except.ok p := by
  rcases h with h | h
  · unfold split_table_identifier
    rw [h]
    cases splitAtFirstDot raw.toList with
    | none => exact ⟨_, rfl⟩
    | some p => obtain ⟨a, b⟩ := p; exact ⟨_, rfl⟩
  · exact ⟨_, by unfold split_table_identifier; rw [h]⟩

theorem run_sync_success_destRows (inp : RunSyncInput) (destBefore rs : List Row)
    (r : SyncRun)
    (hread : inp.engine.readResult = Except.ok rs)
    (hrun : (run_sync inp destBefore).run = some r)
    (hst : r.status = SyncStatus.success) :
    (run_sync inp destBefore).destRows = rs := by
  cases hsy : inp.syncLookup with
  | none => simp [run_sync, hsy] at hrun
  | some sync =>
    cases hsc : inp.sourceConnLookup with
    | none =>
        cases hdc : inp.destConnLookup <;> simp [run_sync, hsy, hsc, hdc] at hrun
    | some sc =>
      cases hdc : inp.destConnLookup with
      | none => simp [run_sync, hsy, hsc, hdc] at hrun
      | some dc =>
        cases hbody : runSyncBody sync sc dc destBefore inp.engine with
        | ok b =>
            have hb := runSyncBody_ok_destRows sync sc dc destBefore
              inp.engine b rs hbody hread
            simp [run_sync, hsy, hsc, hdc, hbody, hb]
        | error e =>
            obtain ⟨m, d, c⟩ := e
            simp [run_sync, hsy, hsc, hdc, hbody] at hrun
            rw [← hrun] at hst
            simp at hst

/-! ## Claim theorems -/

/-- C2, counterexample: under the Postgres dialect with no destination
schema supplied on the Sync, the destination identifier used in the
generated SQL is the bare table name (it contains no dot, so it is not
of the qualified form `schema.table`), refuting "under the Postgres
dialect always the qualified form schema.table". -/
theorem qualified_dest_postgres_bare_counterexample :
    qualified_dest DBType.postgres none "orders" = "orders" ∧
    ("orders".toList.contains '.') = false := by
  exact ⟨rfl, by decide⟩

/-- C2, amended: for both recognized dialects the destination identifier
is `schema.table` exactly when a non-empty destination schema was
supplied on the Sync, and the bare table name otherwise (in particular,
Postgres with no destination schema uses the bare name). -/
theorem qualified_dest_spec (d : DBType) (sch : Option String) (t : String)
    (hd : d = DBType.postgres ∨ d = DBType.mysql) :
    qualified_dest d sch t =
      (match sch with
       | some s => if s.isEmpty then t else s ++ "." ++ t
       | none => t) := by
  rcases hd with h | h <;> subst h <;>
    cases sch with
    | none => simp [qualified_dest, strOptTruthy]
    | some s =>
        by_cases hs : s.isEmpty <;> simp [qualified_dest, strOptTruthy, hs]

/-- Witness for the amended C2 theorem at concrete inputs. -/
theorem qualified_dest_spec_witness :
    qualified_dest DBType.mysql (some "analytics") "orders" =
      (match (some "analytics" : Option String) with
       | some s => if s.isEmpty then "orders" else s ++ "." ++ "orders"
       | none => "orders") ∧
    qualified_dest DBType.postgres none "orders" =
      (match (none : Option String) with
       | some s => if s.isEmpty then "orders" else s ++ "." ++ "orders"
       | none => "orders") :=
  ⟨qualified_dest_spec DBType.mysql (some "analytics") "orders" (Or.inr rfl),
   qualified_dest_spec DBType.postgres none "orders" (Or.inl rfl)⟩

/-- C3, counterexample: under Postgres a raw identifier with two dots is
split at the first dot, not mapped to `("public", raw)` as the claim
requires for a string that does not contain exactly one dot. -/
theorem split_table_identifier_multidot_counterexample :
    split_table_identifier pgConn "a.b.c" = Except.ok ("a", "b.c") ∧
    (("a", "b.c") : String × String) ≠ ("public", "a.b.c") := by
  exact ⟨rfl, by decide⟩

/-- C3, amended: under Postgres the raw identifier is split at the first
dot whenever it contains at least one dot, and defaults to
`("public", raw)` when it contains none; under MySQL the result is
`(connection.database, raw)` with the raw string kept verbatim. -/
theorem split_table_identifier_spec (conn : Connection) (raw sch tbl : String) :
    (conn.db_type = DBType.postgres → '.' ∉ raw.toList →
      split_table_identifier conn raw = .ok ("public", raw)) ∧
    (conn.db_type = DBType.postgres → '.' ∉ sch.toList →
      split_table_identifier conn (sch ++ "." ++ tbl) = .ok (sch, tbl)) ∧
    (conn.db_type = DBType.mysql →
      split_table_identifier conn raw = .ok (conn.database, raw)) := by
  refine ⟨?_, ?_, ?_⟩
  · intro hd hdot
    have hnone : splitAtFirstDot raw.data = none :=
      splitAtFirstDot_of_not_mem raw.data hdot
    simp [split_table_identifier, hd, hnone]
  · intro hd hdot
    have hlist : (sch ++ "." ++ tbl).data = sch.data ++ '.' :: tbl.data := by
      rw [String.data_append, String.data_append]
      have hdotstr : (("." : String)).data = ['.'] := rfl
      rw [hdotstr, List.append_assoc]
      rfl
    have hsplit : splitAtFirstDot (sch.data ++ '.' :: tbl.data) =
        some (sch.data, tbl.data) :=
      splitAtFirstDot_append sch.data tbl.data hdot
    simp [split_table_identifier, hd, hlist, hsplit]
  · intro hd
    simp [split_table_identifier, hd]

/-- Witness for the amended C3 theorem at concrete inputs. -/
theorem split_table_identifier_spec_witness :
    (pgConn.db_type = DBType.postgres → '.' ∉ "orders".toList →
      split_table_identifier pgConn "orders" = .ok ("public", "orders")) ∧
    (pgConn.db_type = DBType.postgres → '.' ∉ "sales".toList →
      split_table_identifier pgConn ("sales" ++ "." ++ "orders") =
        .ok ("sales", "orders")) ∧
    (pgConn.db_type = DBType.mysql →
      split_table_identifier pgConn "orders" = .ok (pgConn.database, "orders")) :=
  split_table_identifier_spec pgConn "orders" "sales" "orders"

/-- C6, counterexample: a round-trip failure that is not a
`SQLAlchemyError` propagates out of `test_db_connection` instead of
being converted into a structured `(ok, message)` result, refuting
"never raises for any input". -/
theorem test_db_connection_raises_counterexample :
    test_db_connection (Except.error ⟨false, "boom"⟩) =
      Except.error (⟨false, "boom"⟩ : PyError) := rfl

/-- C6, amended: `test_db_connection` returns `(True, None)` on success
and converts every `SQLAlchemyError` failure of the round trip into
`(False, message)`; failures of other exception classes are not caught
and propagate. -/
theorem test_db_connection_spec (e : PyError)
    (h : e.isSQLAlchemyError = true) :
    test_db_connection (Except.error e) = Except.ok (false, some e.msg) ∧
    test_db_connection (Except.ok ()) = Except.ok (true, none) := by
  exact ⟨by simp [test_db_connection, h], rfl⟩

/-- Witness for the amended C6 theorem at a concrete input. -/
theorem test_db_connection_spec_witness :
    test_db_connection (Except.error ⟨true, "connection refused"⟩) =
      Except.ok (false, some "connection refused") ∧
    test_db_connection (Except.ok ()) = Except.ok (true, none) :=
  test_db_connection_spec ⟨true, "connection refused"⟩ rfl

/-- C7: under Postgres, `list_schemas_for_connection` returns the
enumerated schemas with exactly the names starting with `pg_` and the
name `information_schema` removed, preserving the enumeration order
(the result is a sublist); under MySQL it returns exactly one name, the
connection's database. -/
theorem list_schemas_for_connection_spec (conn : Connection)
    (all_schemas : List String) :
    (conn.db_type = DBType.postgres →
      ∃ l, list_schemas_for_connection conn all_schemas = .ok l ∧
        l.Sublist all_schemas ∧
        ∀ s, s ∈ l ↔
          s ∈ all_schemas ∧ s.startsWith "pg_" = false ∧
            s ≠ "information_schema") ∧
    (conn.db_type = DBType.mysql →
      list_schemas_for_connection conn all_schemas = .ok [conn.database]) := by
  constructor
  · intro h
    refine ⟨all_schemas.filter
        (fun s => !s.startsWith "pg_" && s != "information_schema"),
      by simp [list_schemas_for_connection, h], List.filter_sublist _, ?_⟩
    intro s
    simp only [List.mem_filter, Bool.and_eq_true, Bool.not_eq_true',
      bne_iff_ne, and_assoc]
  · intro h
    simp [list_schemas_for_connection, h]

theorem toConnectionOut_congr (c₁ c₂ : Connection)
    (h : agreeExceptPassword c₁ c₂) :
    toConnectionOut c₁ = toConnectionOut c₂ := by
  obtain ⟨h1, h2, h3, h4, h5, h6, h7, h8, h9⟩ := h
  simp [toConnectionOut, h1, h2, h3, h4, h5, h6, h7, h8, h9]

theorem insertByName_congr (c₁ c₂ : Connection) (l₁ l₂ : List Connection)
    (hc : agreeExceptPassword c₁ c₂)
    (hl : List.Forall₂ agreeExceptPassword l₁ l₂) :
    List.Forall₂ agreeExceptPassword (insertByName c₁ l₁) (insertByName c₂ l₂) := by
  induction hl with
  | nil => exact List.Forall₂.cons hc List.Forall₂.nil
  | @cons a b as bs hab htl ih =>
      have hname : c₁.name = c₂.name := hc.2.1
      have habname : a.name = b.name := hab.2.1
      by_cases hle : c₁.name ≤ a.name
      · have hle' : c₂.name ≤ b.name := by rw [← hname, ← habname]; exact hle
        simp only [insertByName, if_pos hle, if_pos hle']
        exact List.Forall₂.cons hc (List.Forall₂.cons hab htl)
      · have hle' : ¬ c₂.name ≤ b.name := by rw [← hname, ← habname]; exact hle
        simp only [insertByName, if_neg hle, if_neg hle']
        exact List.Forall₂.cons hab ih

theorem sortByName_congr (l₁ l₂ : List Connection)
    (hl : List.Forall₂ agreeExceptPassword l₁ l₂) :
    List.Forall₂ agreeExceptPassword (sortByName l₁) (sortByName l₂) := by
  induction hl with
  | nil => exact List.Forall₂.nil
  | @cons a b as bs hab htl ih =>
      exact insertByName_congr a b _ _ hab ih

theorem map_toConnectionOut_congr (l₁ l₂ : List Connection)
    (hl : List.Forall₂ agreeExceptPassword l₁ l₂) :
    l₁.map toConnectionOut = l₂.map toConnectionOut := by
  induction hl with
  | nil => rfl
  | @cons a b as bs hab htl ih =>
      simp only [List.map_cons, ih, toConnectionOut_congr a b hab]

/-- C10: the `ConnectionOut` response shape carries no password, so the
serialized outputs of `create_connection` and `list_connections` are
identical for stored connections that differ only in their password. -/
theorem connection_password_never_serialized (c₁ c₂ : Connection)
    (l₁ l₂ : List Connection) (hc : agreeExceptPassword c₁ c₂)
    (hl : List.Forall₂ agreeExceptPassword l₁ l₂) :
    create_connection_response c₁ = create_connection_response c₂ ∧
    list_connections_response l₁ = list_connections_response l₂ := by
  constructor
  · exact toConnectionOut_congr c₁ c₂ hc
  · exact map_toConnectionOut_congr _ _ (sortByName_congr l₁ l₂ hl)

/-- Witness for the C10 theorem: two concrete connections differing only
in their password serialize identically. -/
theorem connection_password_never_serialized_witness :
    create_connection_response pgConn = create_connection_response pgConn2 ∧
    list_connections_response [pgConn] = list_connections_response [pgConn2] :=
  connection_password_never_serialized pgConn pgConn2 [pgConn] [pgConn2]
    ⟨rfl, rfl, rfl, rfl, rfl, rfl, rfl, rfl, rfl⟩
    (List.Forall₂.cons ⟨rfl, rfl, rfl, rfl, rfl, rfl, rfl, rfl, rfl⟩
      List.Forall₂.nil)

/-- C4: when the Sync resolves but the source or destination connection
does not, `run_sync` rejects the request with a 400 before any run is
created: no run record (in particular no FAILED run) results from the
invocation, and the destination is untouched. -/
theorem run_sync_missing_connection_no_run (inp : RunSyncInput)
    (destBefore : List Row) (sync : Sync)
    (hsync : inp.syncLookup = some sync)
    (hmiss : inp.sourceConnLookup = none ∨ inp.destConnLookup = none) :
    (run_sync inp destBefore).run = none ∧
    (run_sync inp destBefore).httpError =
      some (400, "Source or destination connection not found.") ∧
    (run_sync inp destBefore).destRows = destBefore := by
  rcases hmiss with h | h
  · cases hd : inp.destConnLookup <;> simp [run_sync, hsync, h, hd]
  · cases hs : inp.sourceConnLookup <;> simp [run_sync, hsync, h, hs]

/-- Witness for the C4 theorem at a concrete input. -/
theorem run_sync_missing_connection_no_run_witness :
    (run_sync missingConnInput []).run = none ∧
    (run_sync missingConnInput []).httpError =
      some (400, "Source or destination connection not found.") ∧
    (run_sync missingConnInput []).destRows = [] :=
  run_sync_missing_connection_no_run missingConnInput [] sampleSync rfl
    (Or.inl rfl)

/-- C5, counterexample: an invocation whose source connection carries an
unrecognized dialect does leave a run record behind — the run is created
before the dialect is examined and is then resolved to FAILED with the
`ValueError` message — refuting "no Run record exists as a side effect
of that invocation". -/
theorem run_sync_config_error_creates_run_counterexample :
    (run_sync oracleInput []).run =
      some { sync_id := 7, status := SyncStatus.failed, started_at := 10,
             ended_at := some 11, row_count := none,
             error_message := some "Unsupported db_type: oracle" } := rfl

/-- C5, amended: when a referenced connection — source or destination —
has an unrecognized dialect, the `ValueError` from `build_db_url` is
raised only inside the run body, after the run record was created: the
invocation leaves a FAILED run whose error message is the `ValueError`
text (the source URL is built first, so its dialect determines the
message when both are bad), and the destination is untouched. -/
theorem run_sync_config_error_failed_run (inp : RunSyncInput)
    (destBefore : List Row) (sync : Sync) (sc dc : Connection) (s : String)
    (hsync : inp.syncLookup = some sync)
    (hsrc : inp.sourceConnLookup = some sc)
    (hdst : inp.destConnLookup = some dc)
    (hdia : sc.db_type = DBType.other s ∨
      ((sc.db_type = DBType.postgres ∨ sc.db_type = DBType.mysql) ∧
        dc.db_type = DBType.other s)) :
    (run_sync inp destBefore).run =
      some { sync_id := sync.id, status := SyncStatus.failed,
             started_at := inp.startedTime, ended_at := some inp.endedTime,
             row_count := none,
             error_message := some ("Unsupported db_type: " ++ s) } ∧
    (run_sync inp destBefore).destRows = destBefore := by
  rcases hdia with hbad | ⟨hgood, hbad⟩
  · constructor <;>
      simp [run_sync, hsync, hsrc, hdst, runSyncBody, build_db_url, hbad]
  · rcases hgood with hgood | hgood <;>
      constructor <;>
        simp [run_sync, hsync, hsrc, hdst, runSyncBody, build_db_url,
          hgood, hbad]

/-- Witness for the amended C5 theorem at concrete inputs: once with the
unrecognized dialect on the source connection, once on the
destination connection. -/
theorem run_sync_config_error_failed_run_witness :
    ((run_sync oracleInput []).run =
      some { sync_id := sampleSync.id, status := SyncStatus.failed,
             started_at := oracleInput.startedTime,
             ended_at := some oracleInput.endedTime,
             row_count := none,
             error_message := some ("Unsupported db_type: " ++ "oracle") } ∧
    (run_sync oracleInput []).destRows = []) ∧
    ((run_sync oracleDestInput []).run =
      some { sync_id := sampleSync.id, status := SyncStatus.failed,
             started_at := oracleDestInput.startedTime,
             ended_at := some oracleDestInput.endedTime,
             row_count := none,
             error_message := some ("Unsupported db_type: " ++ "oracle") } ∧
    (run_sync oracleDestInput []).destRows = []) :=
  ⟨run_sync_config_error_failed_run oracleInput [] sampleSync oracleConn
      pgConn "oracle" rfl rfl rfl (Or.inl rfl),
   run_sync_config_error_failed_run oracleDestInput [] sampleSync pgConn
      oracleConn "oracle" rfl rfl rfl (Or.inr ⟨Or.inl rfl, rfl⟩)⟩

/-- C1: once a run record has been created (the Sync and both
Connections resolved), no exit path leaves it in RUNNING; and any
failure raised during URL building, identifier resolution, source read,
destination create, truncate, or insert resolves the run to FAILED with
the raised error's message verbatim and `ended_at` set, with the
destination-side transaction rolled back (when the destination table
already existed, the destination keeps its pre-run rows). -/
theorem run_sync_failure_terminal (inp : RunSyncInput) (destBefore : List Row)
    (sync : Sync) (sc dc : Connection)
    (hsync : inp.syncLookup = some sync)
    (hsrc : inp.sourceConnLookup = some sc)
    (hdst : inp.destConnLookup = some dc) :
    (∀ r, (run_sync inp destBefore).run = some r →
      r.status ≠ SyncStatus.running) ∧
    (∀ msg destAfter created,
      runSyncBody sync sc dc destBefore inp.engine =
        Except.error (msg, destAfter, created) →
      (run_sync inp destBefore).run =
        some { sync_id := sync.id, status := SyncStatus.failed,
               started_at := inp.startedTime, ended_at := some inp.endedTime,
               row_count := none, error_message := some msg } ∧
      (run_sync inp destBefore).destRows = destAfter ∧
      (inp.engine.hasTableOutcome = Except.ok true →
        destAfter = destBefore)) := by
  constructor
  · intro r hr
    cases hbody : runSyncBody sync sc dc destBefore inp.engine with
    | ok b =>
        simp [run_sync, hsync, hsrc, hdst, hbody] at hr
        subst hr
        simp
    | error e =>
        obtain ⟨m, d, c⟩ := e
        simp [run_sync, hsync, hsrc, hdst, hbody] at hr
        subst hr
        simp
  · intro msg destAfter created hbody
    obtain ⟨hd, hc⟩ := runSyncBody_error_inv sync sc dc destBefore inp.engine
      msg destAfter created hbody
    refine ⟨?_, ?_, ?_⟩
    · simp [run_sync, hsync, hsrc, hdst, hbody]
    · simp [run_sync, hsync, hsrc, hdst, hbody]
    · intro ht
      rw [hd, hc ht]
      simp

/-- Witness for the C1 theorem at a concrete input whose insert
statement fails. -/
theorem run_sync_failure_terminal_witness :
    ((∀ r, (run_sync failingInsertInput [[("id", "9")]]).run = some r →
      r.status ≠ SyncStatus.running) ∧
    (∀ msg destAfter created,
      runSyncBody sampleSync pgConn pgConn [[("id", "9")]]
          failingInsertInput.engine =
        Except.error (msg, destAfter, created) →
      (run_sync failingInsertInput [[("id", "9")]]).run =
        some { sync_id := sampleSync.id, status := SyncStatus.failed,
               started_at := failingInsertInput.startedTime,
               ended_at := some failingInsertInput.endedTime,
               row_count := none, error_message := some msg } ∧
      (run_sync failingInsertInput [[("id", "9")]]).destRows = destAfter ∧
      (failingInsertInput.engine.hasTableOutcome = Except.ok true →
        destAfter = [[("id", "9")]]))) :=
  run_sync_failure_terminal failingInsertInput [[("id", "9")]] sampleSync
    pgConn pgConn rfl rfl rfl

/-- C8: a run whose source read yields zero rows, against an existing
destination table whose truncate succeeds, still executes the truncate,
issues no insert, ends with status SUCCESS and `row_count = 0`, and
leaves the destination table empty. -/
theorem run_sync_empty_source (inp : RunSyncInput) (destBefore : List Row)
    (sync : Sync) (sc dc : Connection)
    (hsync : inp.syncLookup = some sync)
    (hsrc : inp.sourceConnLookup = some sc)
    (hdst : inp.destConnLookup = some dc)
    (hscd : sc.db_type = DBType.postgres ∨ sc.db_type = DBType.mysql)
    (hdcd : dc.db_type = DBType.postgres ∨ dc.db_type = DBType.mysql)
    (hread : inp.engine.readResult = Except.ok [])
    (ht : inp.engine.hasTableOutcome = Except.ok true)
    (htr : inp.engine.truncateOutcome = Except.ok ()) :
    (run_sync inp destBefore).run =
      some { sync_id := sync.id, status := SyncStatus.success,
             started_at := inp.startedTime, ended_at := some inp.endedTime,
             row_count := some 0, error_message := none } ∧
    (run_sync inp destBefore).destRows = [] ∧
    (run_sync inp destBefore).truncateExecuted = true ∧
    (run_sync inp destBefore).insertExecuted = false := by
  obtain ⟨u1, hu1⟩ := build_db_url_isOk sc hscd
  obtain ⟨u2, hu2⟩ := build_db_url_isOk dc hdcd
  obtain ⟨⟨a, b⟩, hp⟩ := split_table_identifier_isOk sc sync.source_table hscd
  have hbody : runSyncBody sync sc dc destBefore inp.engine =
      Except.ok { row_count := 0, destRows := [], tableCreated := false,
                  truncateExecuted := true, insertExecuted := false } := by
    rcases hdcd with h2 | h2 <;>
      simp [runSyncBody, hu1, hu2, hp, hread, h2, ht, htr]
  simp [run_sync, hsync, hsrc, hdst, hbody]

/-- Witness for the C8 theorem at a concrete input: the pre-run
destination row is gone afterwards. -/
theorem run_sync_empty_source_witness :
    (run_sync emptyReadInput [[("id", "9")]]).run =
      some { sync_id := sampleSync.id, status := SyncStatus.success,
             started_at := emptyReadInput.startedTime,
             ended_at := some emptyReadInput.endedTime,
             row_count := some 0, error_message := none } ∧
    (run_sync emptyReadInput [[("id", "9")]]).destRows = [] ∧
    (run_sync emptyReadInput [[("id", "9")]]).truncateExecuted = true ∧
    (run_sync emptyReadInput [[("id", "9")]]).insertExecuted = false :=
  run_sync_empty_source emptyReadInput [[("id", "9")]] sampleSync pgConn pgConn
    rfl rfl rfl (Or.inl rfl) (Or.inl rfl) rfl rfl rfl

/-- C9: two consecutive successful runs over an unchanged source (both
reads return the same rows) leave the destination with identical
content after each run — both times exactly the source rows. -/
theorem run_sync_truncate_insert_idempotent (inp₁ inp₂ : RunSyncInput)
    (destBefore rs : List Row) (r₁ r₂ : SyncRun)
    (hr1 : inp₁.engine.readResult = Except.ok rs)
    (hr2 : inp₂.engine.readResult = Except.ok rs)
    (h1 : (run_sync inp₁ destBefore).run = some r₁)
    (hs1 : r₁.status = SyncStatus.success)
    (h2 : (run_sync inp₂ (run_sync inp₁ destBefore).destRows).run = some r₂)
    (hs2 : r₂.status = SyncStatus.success) :
    (run_sync inp₁ destBefore).destRows = rs ∧
    (run_sync inp₂ (run_sync inp₁ destBefore).destRows).destRows = rs := by
  exact ⟨run_sync_success_destRows inp₁ destBefore rs r₁ hr1 h1 hs1,
    run_sync_success_destRows inp₂ _ rs r₂ hr2 h2 hs2⟩

/-- Witness for the C9 theorem: two concrete consecutive runs both leave
the same single source row in the destination. -/
theorem run_sync_truncate_insert_idempotent_witness :
    (run_sync okInput []).destRows = [[("id", "1"), ("name", "widget")]] ∧
    (run_sync okInput (run_sync okInput []).destRows).destRows =
      [[("id", "1"), ("name", "widget")]] :=
  run_sync_truncate_insert_idempotent okInput okInput []
    [[("id", "1"), ("name", "widget")]]
    { sync_id := 7, status := SyncStatus.success, started_at := 10,
      ended_at := some 11, row_count := some 1, error_message := none }
    { sync_id := 7, status := SyncStatus.success, started_at := 10,
      ended_at := some 11, row_count := some 1, error_message := none }
    rfl rfl rfl rfl rfl rfl

/-- Witness for the C7 theorem at concrete inputs. -/
theorem list_schemas_for_connection_spec_witness :
    ((pgConn.db_type = DBType.postgres →
      ∃ l, list_schemas_for_connection pgConn
            ["pg_catalog", "information_schema", "public"] = .ok l ∧
        l.Sublist ["pg_catalog", "information_schema", "public"] ∧
        ∀ s, s ∈ l ↔
          s ∈ ["pg_catalog", "information_schema", "public"] ∧
            s.startsWith "pg_" = false ∧ s ≠ "information_schema") ∧
    (pgConn.db_type = DBType.mysql →
      list_schemas_for_connection pgConn
        ["pg_catalog", "information_schema", "public"] = .ok [pgConn.database])) :=
  list_schemas_for_connection_spec pgConn
    ["pg_catalog", "information_schema", "public"]

end Pipecraft
